import Mathlib

/-!
Verification development for the H-R diagram maker (`HR_app.py`).

The script is a single linear pipeline: load an uploaded CSV, validate
that five required columns are present, map the integer star-type code of
every row to display attributes through a fixed six-entry table, and draw
a multi-axis scatter figure.  The shallow embedding below follows the
source function by function:

* `load_data`      — column-presence validation (`HR_app.py` lines 27–37);
* `map_star_types` — the classifier (lines 40–52); a star-type code
  outside the table is a Python `KeyError`, modelled by `Option`;
* `create_spectral_class_axis` (lines 55–65) and
  `create_luminosity_axis` (lines 68–82) — the two overlay axis builders;
* `plot_hr_diagram` (lines 85–126) — the renderer; the axis limits are
  `min`/`max` of a data column, which for an empty column is `NaN` in
  pandas and makes matplotlib's `set_xlim` raise, so the embedding
  returns `none` on an empty dataset;
* `runApp`         — the main app logic (lines 129–134): errors raised
  inside `load_data` are caught and reported, while exceptions escaping
  `map_star_types` or `plot_hr_diagram` are uncaught (a crash).

Numbers are embedded as `ℚ` (the script never does anything that
distinguishes floats from exact arithmetic at the precision of the
claims), star-type codes as `ℤ`.
-/

set_option maxRecDepth 4000

/-- One CSV data row, with the five required columns. -/
structure Row where
  temp : ℚ
  lum : ℚ
  mv : ℚ
  starType : ℤ
  spectral : String
deriving DecidableEq

/-- An uploaded CSV: a header (list of column names) plus data rows. -/
structure CSV where
  header : List String
  rows : List Row
deriving DecidableEq

/-- The five required column names (`HR_app.py` line 30). -/
def required_columns : List String :=
  ["Temperature (K)", "Luminosity(L/Lo)", "Absolute magnitude(Mv)", "Star type", "Spectral Class"]

/-- Loader (`HR_app.py` lines 27–37): succeed with the parsed rows iff the
header contains every required column; otherwise report an error and
return `None`. -/
def load_data (csv : CSV) : Option (List Row) :=
  if required_columns.all (fun c => csv.header.contains c) then some csv.rows else none

/-- The fixed star-type lookup table (`HR_app.py` lines 41–48).  A code
outside `{0..5}` has no entry: in Python the dictionary lookup raises
`KeyError`, here it is `none`. -/
def star_type_map (code : ℤ) : Option (String × ℕ × String) :=
  if code = 0 then some ("Red Dwarf", 30, "red")
  else if code = 1 then some ("Brown Dwarf", 20, "maroon")
  else if code = 2 then some ("White Dwarf", 25, "green")
  else if code = 3 then some ("Main Sequence", 50, "blue")
  else if code = 4 then some ("Giant", 80, "orange")
  else if code = 5 then some ("Supergiant", 100, "purple")
  else none

/-- A classified row: the original row augmented with the three derived
columns `Star type label`, `Marker size`, `Color`. -/
structure CRow where
  row : Row
  label : String
  size : ℕ
  color : String
deriving DecidableEq

/-- Classifier (`HR_app.py` lines 40–52): look every row's star-type code
up in `star_type_map` and append the derived columns.  The first code
without a table entry raises (`none`). -/
def map_star_types : List Row → Option (List CRow)
  | [] => some []
  | r :: rs =>
    match star_type_map r.starType with
    | none => none
    | some t =>
      match map_star_types rs with
      | none => none
      | some cs => some ({ row := r, label := t.1, size := t.2.1, color := t.2.2 } :: cs)

/-- Axis scale kind. -/
inductive Scale where
  | log
  | linear
deriving DecidableEq

/-- The secondary (spectral-class) overlay axis, as configured by
`create_spectral_class_axis`. -/
structure SpectralAxis where
  xscale : Scale
  xlim : ℚ × ℚ
  xticks : List ℚ
  xticklabels : List String
  inverted : Bool
deriving DecidableEq

/-- Secondary axis builder (`HR_app.py` lines 55–65): log scale, limits
from the caller's temperature range, fixed ticks at the OBAFGKM
temperature boundaries, inverted direction. -/
def create_spectral_class_axis (temp_range : ℚ × ℚ) : SpectralAxis :=
  { xscale := Scale.log
    xlim := temp_range
    xticks := [40000, 30000, 10000, 7500, 6000, 3700, 2000]
    xticklabels := ["O", "B", "A", "F", "G", "K", "M"]
    inverted := true }

/-- The tertiary (luminosity) overlay axis, as configured by
`create_luminosity_axis`. -/
structure LumAxis where
  yscale : Scale
  ylim : ℚ × ℚ
  yticks : List ℚ
  yticklabels : List String
  minor_subs : List ℚ
deriving DecidableEq

/-- Tertiary axis builder (`HR_app.py` lines 68–82): log scale, fixed
limits `1e-6` to `1e6`, major ticks `10**i` for `i in range(-6, 7)` with
labels `f'$10^{i}$'`, and a minor `LogLocator` with
`subs=np.arange(1, 10)`, i.e. multiples 1–9 of each decade.  The
`mv_range` argument is accepted but never used. -/
def create_luminosity_axis (mv_range : ℚ × ℚ) : LumAxis :=
  { yscale := Scale.log
    ylim := ((1 : ℚ) / 1000000, 1000000)
    yticks := (List.range 13).map (fun i => (10 : ℚ) ^ ((i : ℤ) - 6))
    yticklabels := (List.range 13).map (fun i => "$10^\x7b" ++ toString ((i : ℤ) - 6) ++ "\x7d$")
    minor_subs := [1, 2, 3, 4, 5, 6, 7, 8, 9] }

/-- One scatter series as drawn by one `ax.scatter` call in the renderer's
loop: its legend label, color, the uniform marker size, and the plotted
(temperature, magnitude) points. -/
structure Series where
  label : String
  color : String
  size : ℕ
  points : List (ℚ × ℚ)
deriving DecidableEq

/-- `pandas.Series.unique`: the distinct values of a column in order of
first appearance. -/
def uniqueFirst {α : Type} [DecidableEq α] : List α → List α
  | [] => []
  | x :: xs => x :: uniqueFirst (xs.filter (fun y => y ≠ x))
termination_by l => l.length
decreasing_by
  simp only [List.length_cons]
  exact Nat.lt_succ_of_le (List.length_filter_le _ _)

/-- One iteration of the renderer's scatter loop (`HR_app.py` lines
88–100): for a zipped (label, color) pair, take the subset of rows with
that label; if non-empty, draw it with that color, the marker size of the
subset's first row, and the subset's (temperature, magnitude) points. -/
def seriesFor (crows : List CRow) (lc : String × String) : Option Series :=
  match crows.filter (fun c => c.label = lc.1) with
  | [] => none
  | c :: cs =>
    some { label := lc.1
           color := lc.2
           size := c.size
           points := (c :: cs).map (fun q => (q.row.temp, q.row.mv)) }

/-- The full scatter loop: iterate over
`zip(df['Star type label'].unique(), df['Color'].unique())` and collect
the series actually drawn. -/
def scatterSeries (crows : List CRow) : List Series :=
  ((uniqueFirst (crows.map CRow.label)).zip (uniqueFirst (crows.map CRow.color))).filterMap
    (seriesFor crows)

/-- `pandas` column minimum: `none` on an empty column (pandas yields
`NaN` there, which the renderer then feeds to `set_xlim`, raising). -/
def colMin : List ℚ → Option ℚ
  | [] => none
  | x :: xs => some (xs.foldl min x)

/-- `pandas` column maximum, `none` on an empty column. -/
def colMax : List ℚ → Option ℚ
  | [] => none
  | x :: xs => some (xs.foldl max x)

/-- The figure assembled by the renderer: scatter series, primary axis
scales / limits / ticks, and the two overlay axes. -/
structure Figure where
  series : List Series
  xscale : Scale
  yscale : Scale
  xlim : ℚ × ℚ
  ylim : ℚ × ℚ
  xticks : List ℚ
  xminor_subs : List ℚ
  spectral : SpectralAxis
  lum : LumAxis
deriving DecidableEq

/-- Renderer (`HR_app.py` lines 85–126).  Draw one scatter series per
zipped (label, color) pair, set a log x-scale and linear y-scale, compute
`temp_min, temp_max = min*0.9, max*1.1` and `mv_min, mv_max = min-1,
max+1` from the data columns, set the inverted limits
`set_xlim(temp_max, temp_min)` / `set_ylim(mv_max, mv_min)`, fix the
major temperature ticks, put minor log ticks at multiples 2–9, and attach
both overlay axes.  On an empty dataset the column min/max are undefined
(`NaN`), `set_xlim` raises, and no figure is produced: `none`. -/
def plot_hr_diagram (crows : List CRow) : Option Figure :=
  match colMin (crows.map (fun c => c.row.temp)), colMax (crows.map (fun c => c.row.temp)),
        colMin (crows.map (fun c => c.row.mv)), colMax (crows.map (fun c => c.row.mv)) with
  | some tmin, some tmax, some mvmin, some mvmax =>
    some { series := scatterSeries crows
           xscale := Scale.log
           yscale := Scale.linear
           xlim := (tmax * (11 / 10), tmin * (9 / 10))
           ylim := (mvmax + 1, mvmin - 1)
           xticks := [40000, 30000, 20000, 10000, 7500, 6000, 5000, 3000]
           xminor_subs := [2, 3, 4, 5, 6, 7, 8, 9]
           spectral := create_spectral_class_axis (tmin * (9 / 10), tmax * (11 / 10))
           lum := create_luminosity_axis (mvmin - 1, mvmax + 1) }
  | _, _, _, _ => none

/-- Outcome of one upload as seen at the app boundary: a reported load
error, an uncaught exception (crash), or a rendered figure. -/
inductive AppOutcome where
  | loadError
  | crashed
  | rendered (fig : Figure)
deriving DecidableEq

/-- Main app logic (`HR_app.py` lines 129–134): run the Loader; on its
`None` show the already-reported error and stop; otherwise classify and
render.  `map_star_types` and `plot_hr_diagram` run outside any
`try`/`except`, so an exception there escapes uncaught. -/
def runApp (csv : CSV) : AppOutcome :=
  match load_data csv with
  | none => AppOutcome.loadError
  | some rows =>
    match map_star_types rows with
    | none => AppOutcome.crashed
    | some crows =>
      match plot_hr_diagram crows with
      | none => AppOutcome.crashed
      | some fig => AppOutcome.rendered fig

/-- The classified dataset reached from an upload, when the pipeline gets
that far. -/
def classifiedRows (csv : CSV) : Option (List CRow) :=
  (load_data csv).bind map_star_types

/-- The derived columns of a classified dataset: per row, the
(label, marker size, color) triple. -/
def derivedCols (crows : List CRow) : List (String × ℕ × String) :=
  crows.map (fun c => (c.label, c.size, c.color))

example : star_type_map 3 = some ("Main Sequence", 50, "blue") := by decide
example : star_type_map 6 = none := by decide
example : load_data { header := ["Temperature (K)"], rows := [] } = none := by decide

/-- The (code ↦ label, marker size, color) table exactly as the
specification's six-entry table states it, used to state the classifier
claims independently of `star_type_map`. -/
def claimedAttributes (code : ℤ) : String × ℕ × String :=
  if code = 0 then ("Red Dwarf", 30, "red")
  else if code = 1 then ("Brown Dwarf", 20, "maroon")
  else if code = 2 then ("White Dwarf", 25, "green")
  else if code = 3 then ("Main Sequence", 50, "blue")
  else if code = 4 then ("Giant", 80, "orange")
  else ("Supergiant", 100, "purple")

/-- C1: a CSV whose header lacks at least one required column makes the
Loader report a validation failure and return `None`, and the app stops
there: neither the Classifier nor the Renderer runs and no figure is
produced. -/
theorem C1_missing_column_no_figure (csv : CSV)
    (h : ∃ c ∈ required_columns, ¬ csv.header.contains c) :
    load_data csv = none ∧ runApp csv = AppOutcome.loadError := by
  obtain ⟨c, hc, hnc⟩ := h
  have hload : load_data csv = none := by
    simp only [load_data, ite_eq_right_iff, reduceCtorEq, imp_false, List.all_eq_true, not_forall]
    exact ⟨c, hc, by simpa using hnc⟩
  exact ⟨hload, by simp [runApp, hload]⟩

/-- Witness for C1 at a concrete CSV whose header has only one of the
five required columns. -/
theorem C1_missing_column_no_figure_witness :
    load_data { header := ["Temperature (K)"], rows := [] } = none ∧
    runApp { header := ["Temperature (K)"], rows := [] } = AppOutcome.loadError :=
  C1_missing_column_no_figure { header := ["Temperature (K)"], rows := [] } (by decide)

/-- C2: on a dataset whose star-type codes all lie in `{0..5}`, the
Classifier succeeds with exactly one derived row per input row, and each
row's (label, marker size, color) triple equals the fixed table entry for
its code. -/
theorem C2_classifier_matches_table (rows : List Row)
    (h : ∀ r ∈ rows, r.starType = 0 ∨ r.starType = 1 ∨ r.starType = 2 ∨
      r.starType = 3 ∨ r.starType = 4 ∨ r.starType = 5) :
    ∃ crows, map_star_types rows = some crows ∧ crows.length = rows.length ∧
      List.Forall₂ (fun r c => c.row = r ∧ (c.label, c.size, c.color) = claimedAttributes r.starType)
        rows crows := by
  induction rows with
  | nil => exact ⟨[], rfl, rfl, List.Forall₂.nil⟩
  | cons r rs ih =>
    obtain ⟨cs, hcs, hlen, hrel⟩ := ih (fun x hx => h x (List.mem_cons_of_mem _ hx))
    have hr := h r (List.mem_cons_self _ _)
    have ht : star_type_map r.starType = some (claimedAttributes r.starType) := by
      rcases hr with h0 | h0 | h0 | h0 | h0 | h0 <;> rw [h0] <;> decide
    refine ⟨{ row := r, label := (claimedAttributes r.starType).1,
              size := (claimedAttributes r.starType).2.1,
              color := (claimedAttributes r.starType).2.2 } :: cs, ?_, ?_, ?_⟩
    · simp [map_star_types, ht, hcs]
    · simp [hlen]
    · exact List.Forall₂.cons ⟨rfl, by simp⟩ hrel

/-- Witness for C2 at the spec's scenario row (5778 K, Mv 4.83, type 3,
class G). -/
theorem C2_classifier_matches_table_witness :
    ∃ crows,
      map_star_types [{ temp := 5778, lum := 1, mv := 483/100, starType := 3, spectral := "G" }] =
        some crows ∧
      crows.length =
        [({ temp := 5778, lum := 1, mv := 483/100, starType := 3, spectral := "G" } : Row)].length ∧
      List.Forall₂ (fun r c => c.row = r ∧ (c.label, c.size, c.color) = claimedAttributes r.starType)
        [{ temp := 5778, lum := 1, mv := 483/100, starType := 3, spectral := "G" }] crows :=
  C2_classifier_matches_table _ (by decide)

/-- C3: a star-type code of 6 has no table entry; the lookup failure
escapes `map_star_types` uncaught (a `KeyError` in the source), so the
app crashes instead of reporting a validation error. -/
theorem C3_unmapped_code_crashes :
    runApp { header := required_columns,
             rows := [{ temp := 5778, lum := 1, mv := 483/100, starType := 6, spectral := "G" }] } =
      AppOutcome.crashed := by decide

/-- C7 counterexample: the luminosity axis minor locator is built with
`subs=np.arange(1, 10)`, so its subs list is 1–9 — it includes the decade
multiple 1, not only the non-decade multiples 2–9 that the claim
states. -/
theorem C7_minor_subs_counterexample :
    (create_luminosity_axis (0, 0)).minor_subs = [1, 2, 3, 4, 5, 6, 7, 8, 9] ∧
    (create_luminosity_axis (0, 0)).minor_subs ≠ [2, 3, 4, 5, 6, 7, 8, 9] := by decide

/-- C7 amended: for every magnitude range passed in, the tertiary axis is
logarithmic with fixed limits 10⁻⁶ to 10⁶, major ticks at every power of
ten in that span labeled `10^k` for k ∈ [-6, 6], and minor ticks at the
multiples 1–9 of each decade (including the decade multiple 1); the
result never depends on the range argument, so it is never derived from
the dataset. -/
theorem C7_luminosity_axis_fixed (r s : ℚ × ℚ) :
    create_luminosity_axis r = create_luminosity_axis s ∧
    (create_luminosity_axis r).yscale = Scale.log ∧
    (create_luminosity_axis r).ylim = ((1 : ℚ) / 1000000, 1000000) ∧
    (create_luminosity_axis r).yticks =
      [1/1000000, 1/100000, 1/10000, 1/1000, 1/100, 1/10, 1, 10, 100, 1000, 10000, 100000, 1000000] ∧
    (create_luminosity_axis r).yticklabels =
      ["$10^\x7b-6\x7d$", "$10^\x7b-5\x7d$", "$10^\x7b-4\x7d$", "$10^\x7b-3\x7d$",
       "$10^\x7b-2\x7d$", "$10^\x7b-1\x7d$", "$10^\x7b0\x7d$", "$10^\x7b1\x7d$",
       "$10^\x7b2\x7d$", "$10^\x7b3\x7d$", "$10^\x7b4\x7d$", "$10^\x7b5\x7d$", "$10^\x7b6\x7d$"] ∧
    (create_luminosity_axis r).minor_subs = [1, 2, 3, 4, 5, 6, 7, 8, 9] := by
  have htick : (create_luminosity_axis (0, 0)).yticks =
      [1/1000000, 1/100000, 1/10000, 1/1000, 1/100, 1/10, 1, 10, 100, 1000, 10000, 100000, 1000000] := by
    show (List.range 13).map (fun i => (10 : ℚ) ^ ((i : ℤ) - 6)) = _
    norm_num [List.range_succ]
  have hlab : (create_luminosity_axis (0, 0)).yticklabels =
      ["$10^\x7b-6\x7d$", "$10^\x7b-5\x7d$", "$10^\x7b-4\x7d$", "$10^\x7b-3\x7d$",
       "$10^\x7b-2\x7d$", "$10^\x7b-1\x7d$", "$10^\x7b0\x7d$", "$10^\x7b1\x7d$",
       "$10^\x7b2\x7d$", "$10^\x7b3\x7d$", "$10^\x7b4\x7d$", "$10^\x7b5\x7d$", "$10^\x7b6\x7d$"] := by
    decide
  exact ⟨rfl, rfl, rfl, htick, hlab, rfl⟩

/-- C8 counterexample: on a header-only CSV the Loader succeeds and the
Classifier yields zero rows, but the Renderer does not produce a figure:
the axis limits come from the min/max of an empty column (`NaN` in
pandas), `set_xlim` raises, and the app crashes. -/
theorem C8_empty_dataset_counterexample :
    load_data { header := required_columns, rows := [] } = some [] ∧
    map_star_types [] = some [] ∧
    plot_hr_diagram [] = none ∧
    runApp { header := required_columns, rows := [] } = AppOutcome.crashed := by decide

/-- C8 amended: for every CSV that the Loader accepts and that has zero
data rows, the Classifier yields zero derived rows and the Renderer
produces no figure (the empty-column min/max are undefined and setting
the limits raises), so the run ends in a crash rather than a rendered
figure. -/
theorem C8_empty_dataset_no_figure (csv : CSV)
    (hload : load_data csv = some csv.rows) (hempty : csv.rows = []) :
    map_star_types csv.rows = some [] ∧ plot_hr_diagram [] = none ∧
    runApp csv = AppOutcome.crashed := by
  refine ⟨by rw [hempty]; decide, rfl, ?_⟩
  rw [hempty] at hload
  simp only [runApp, hload]
  decide

/-- Witness for C8 amended at the header-only CSV with exactly the five
required columns. -/
theorem C8_empty_dataset_no_figure_witness :
    map_star_types ({ header := required_columns, rows := [] } : CSV).rows = some [] ∧
    plot_hr_diagram [] = none ∧
    runApp { header := required_columns, rows := [] } = AppOutcome.crashed :=
  C8_empty_dataset_no_figure { header := required_columns, rows := [] } (by decide) rfl

/-- C9: the pipeline is a pure function of the uploaded CSV: two runs on
identical input produce identical load results, identical derived
columns, identical primary axis ranges, and identical app outcomes. -/
theorem C9_pipeline_deterministic (csv1 csv2 : CSV) (h : csv1 = csv2) :
    load_data csv1 = load_data csv2 ∧
    (classifiedRows csv1).map derivedCols = (classifiedRows csv2).map derivedCols ∧
    ((classifiedRows csv1).bind plot_hr_diagram).map Figure.xlim =
      ((classifiedRows csv2).bind plot_hr_diagram).map Figure.xlim ∧
    ((classifiedRows csv1).bind plot_hr_diagram).map Figure.ylim =
      ((classifiedRows csv2).bind plot_hr_diagram).map Figure.ylim ∧
    runApp csv1 = runApp csv2 := by
  subst h
  exact ⟨rfl, rfl, rfl, rfl, rfl⟩

/-- Witness for C9 at a concrete one-row CSV. -/
theorem C9_pipeline_deterministic_witness :
    load_data { header := required_columns,
                rows := [{ temp := 5778, lum := 1, mv := 483/100, starType := 3, spectral := "G" }] } =
      load_data { header := required_columns,
                  rows := [{ temp := 5778, lum := 1, mv := 483/100, starType := 3, spectral := "G" }] } ∧
    (classifiedRows { header := required_columns,
                      rows := [{ temp := 5778, lum := 1, mv := 483/100, starType := 3, spectral := "G" }] }).map derivedCols =
      (classifiedRows { header := required_columns,
                        rows := [{ temp := 5778, lum := 1, mv := 483/100, starType := 3, spectral := "G" }] }).map derivedCols ∧
    ((classifiedRows { header := required_columns,
                       rows := [{ temp := 5778, lum := 1, mv := 483/100, starType := 3, spectral := "G" }] }).bind plot_hr_diagram).map Figure.xlim =
      ((classifiedRows { header := required_columns,
                         rows := [{ temp := 5778, lum := 1, mv := 483/100, starType := 3, spectral := "G" }] }).bind plot_hr_diagram).map Figure.xlim ∧
    ((classifiedRows { header := required_columns,
                       rows := [{ temp := 5778, lum := 1, mv := 483/100, starType := 3, spectral := "G" }] }).bind plot_hr_diagram).map Figure.ylim =
      ((classifiedRows { header := required_columns,
                         rows := [{ temp := 5778, lum := 1, mv := 483/100, starType := 3, spectral := "G" }] }).bind plot_hr_diagram).map Figure.ylim ∧
    runApp { header := required_columns,
             rows := [{ temp := 5778, lum := 1, mv := 483/100, starType := 3, spectral := "G" }] } =
      runApp { header := required_columns,
               rows := [{ temp := 5778, lum := 1, mv := 483/100, starType := 3, spectral := "G" }] } :=
  C9_pipeline_deterministic _ _ rfl

theorem foldl_min_le_init (x : ℚ) (xs : List ℚ) : xs.foldl min x ≤ x := by
  induction xs generalizing x with
  | nil => exact le_refl x
  | cons y ys ih => exact le_trans (ih (min x y)) (min_le_left x y)

theorem init_le_foldl_max (x : ℚ) (xs : List ℚ) : x ≤ xs.foldl max x := by
  induction xs generalizing x with
  | nil => exact le_refl x
  | cons y ys ih => exact le_trans (le_max_left x y) (ih (max x y))

theorem foldl_min_pos (x : ℚ) (xs : List ℚ) (hx : 0 < x) (hxs : ∀ y ∈ xs, 0 < y) :
    0 < xs.foldl min x := by
  induction xs generalizing x with
  | nil => exact hx
  | cons y ys ih =>
    exact ih (min x y) (lt_min hx (hxs y (List.mem_cons_self _ _)))
      (fun z hz => hxs z (List.mem_cons_of_mem _ hz))

/-- C5: on a non-empty classified dataset the renderer sets the primary
horizontal limits to `set_xlim(max*1.1, min*0.9)` — the padded maximum
first (inverted axis) — and when every temperature is positive, that left
bound is strictly greater than the right bound. -/
theorem C5_primary_xaxis_range (crows : List CRow) (tmin tmax : ℚ)
    (hmin : colMin (crows.map (fun c => c.row.temp)) = some tmin)
    (hmax : colMax (crows.map (fun c => c.row.temp)) = some tmax) :
    ∃ fig, plot_hr_diagram crows = some fig ∧
      fig.xscale = Scale.log ∧
      fig.xlim = (tmax * (11 / 10), tmin * (9 / 10)) ∧
      ((∀ c ∈ crows, 0 < c.row.temp) → tmin * (9 / 10) < tmax * (11 / 10)) := by
  cases crows with
  | nil => simp [colMin] at hmin
  | cons c cs =>
    have htmin : (cs.map (fun x => x.row.temp)).foldl min c.row.temp = tmin := by
      simpa [colMin] using hmin
    have htmax : (cs.map (fun x => x.row.temp)).foldl max c.row.temp = tmax := by
      simpa [colMax] using hmax
    refine ⟨_, rfl, rfl, ?_, ?_⟩
    · show ((cs.map (fun x => x.row.temp)).foldl max c.row.temp * (11 / 10),
            (cs.map (fun x => x.row.temp)).foldl min c.row.temp * (9 / 10)) =
        (tmax * (11 / 10), tmin * (9 / 10))
      rw [htmin, htmax]
    · intro hpos
      have h0 : 0 < tmin := by
        rw [← htmin]
        refine foldl_min_pos _ _ (hpos c (List.mem_cons_self _ _)) ?_
        intro y hy
        obtain ⟨d, hd, rfl⟩ := List.mem_map.mp hy
        exact hpos d (List.mem_cons_of_mem _ hd)
      have h1 : tmin ≤ c.row.temp := htmin ▸ foldl_min_le_init _ _
      have h2 : c.row.temp ≤ tmax := htmax ▸ init_le_foldl_max _ _
      nlinarith

/-- Witness for C5 at the one-row classified dataset of the spec's
scenario (a Main Sequence star at 5778 K). -/
theorem C5_primary_xaxis_range_witness :
    ∃ fig,
      plot_hr_diagram
        [{ row := { temp := 5778, lum := 1, mv := 483/100, starType := 3, spectral := "G" },
           label := "Main Sequence", size := 50, color := "blue" }] = some fig ∧
      fig.xscale = Scale.log ∧
      fig.xlim = ((5778 : ℚ) * (11 / 10), (5778 : ℚ) * (9 / 10)) ∧
      ((∀ c ∈ [({ row := { temp := 5778, lum := 1, mv := 483/100, starType := 3, spectral := "G" },
                  label := "Main Sequence", size := 50, color := "blue" } : CRow)], 0 < c.row.temp) →
        (5778 : ℚ) * (9 / 10) < (5778 : ℚ) * (11 / 10)) :=
  C5_primary_xaxis_range _ 5778 5778 rfl rfl

/-- C6: on a non-empty classified dataset the primary vertical axis is
linear with limits `set_ylim(max+1, min-1)` — padded maximum magnitude
first, so the bright (low-magnitude) end sits at the top — and the pair
is always genuinely inverted: `min - 1 < max + 1`. -/
theorem C6_primary_yaxis_range (crows : List CRow) (mvmin mvmax : ℚ)
    (hmin : colMin (crows.map (fun c => c.row.mv)) = some mvmin)
    (hmax : colMax (crows.map (fun c => c.row.mv)) = some mvmax) :
    ∃ fig, plot_hr_diagram crows = some fig ∧
      fig.yscale = Scale.linear ∧
      fig.ylim = (mvmax + 1, mvmin - 1) ∧
      mvmin - 1 < mvmax + 1 := by
  cases crows with
  | nil => simp [colMin] at hmin
  | cons c cs =>
    have hmvmin : (cs.map (fun x => x.row.mv)).foldl min c.row.mv = mvmin := by
      simpa [colMin] using hmin
    have hmvmax : (cs.map (fun x => x.row.mv)).foldl max c.row.mv = mvmax := by
      simpa [colMax] using hmax
    refine ⟨_, rfl, rfl, ?_, ?_⟩
    · show ((cs.map (fun x => x.row.mv)).foldl max c.row.mv + 1,
            (cs.map (fun x => x.row.mv)).foldl min c.row.mv - 1) = (mvmax + 1, mvmin - 1)
      rw [hmvmin, hmvmax]
    · have h1 : mvmin ≤ c.row.mv := hmvmin ▸ foldl_min_le_init _ _
      have h2 : c.row.mv ≤ mvmax := hmvmax ▸ init_le_foldl_max _ _
      linarith

/-- Witness for C6 at the same one-row classified dataset. -/
theorem C6_primary_yaxis_range_witness :
    ∃ fig,
      plot_hr_diagram
        [{ row := { temp := 5778, lum := 1, mv := 483/100, starType := 3, spectral := "G" },
           label := "Main Sequence", size := 50, color := "blue" }] = some fig ∧
      fig.yscale = Scale.linear ∧
      fig.ylim = ((483 : ℚ)/100 + 1, (483 : ℚ)/100 - 1) ∧
      (483 : ℚ)/100 - 1 < (483 : ℚ)/100 + 1 :=
  C6_primary_yaxis_range _ (483/100) (483/100) rfl rfl

theorem uniqueFirst_subset {α : Type} [DecidableEq α] :
    ∀ (l : List α) (a : α), a ∈ uniqueFirst l → a ∈ l := by
  intro l
  induction l using uniqueFirst.induct with
  | case1 => intro a ha; simp [uniqueFirst] at ha
  | case2 x xs ih =>
    intro a ha
    rw [uniqueFirst] at ha
    rcases List.mem_cons.mp ha with rfl | h2
    · exact List.mem_cons_self _ _
    · exact List.mem_cons_of_mem _ (List.mem_of_mem_filter (ih a h2))

theorem mem_uniqueFirst {α : Type} [DecidableEq α] :
    ∀ (l : List α) (a : α), a ∈ uniqueFirst l ↔ a ∈ l := by
  intro l
  induction l using uniqueFirst.induct with
  | case1 => intro a; simp [uniqueFirst]
  | case2 x xs ih =>
    intro a
    rw [uniqueFirst]
    by_cases hax : a = x
    · subst hax; simp
    · simp only [List.mem_cons, hax, false_or]
      rw [ih a, List.mem_filter]
      simp [hax]

theorem uniqueFirst_nodup {α : Type} [DecidableEq α] :
    ∀ (l : List α), (uniqueFirst l).Nodup := by
  intro l
  induction l using uniqueFirst.induct with
  | case1 => simp [uniqueFirst]
  | case2 x xs ih =>
    rw [uniqueFirst]
    refine List.nodup_cons.mpr ⟨?_, ih⟩
    intro hx
    have := List.mem_filter.mp ((mem_uniqueFirst _ _).mp hx)
    simp at this

theorem uniqueFirst_map {α β : Type} [DecidableEq α] [DecidableEq β] (f : α → β) :
    ∀ (l : List α), (∀ a ∈ l, ∀ b ∈ l, f a = f b → a = b) →
      uniqueFirst (l.map f) = (uniqueFirst l).map f := by
  intro l
  induction l using uniqueFirst.induct with
  | case1 => intro _; simp [uniqueFirst]
  | case2 x xs ih =>
    intro hinj
    rw [List.map_cons, uniqueFirst, uniqueFirst, List.map_cons]
    congr 1
    have hfil : (xs.map f).filter (fun y => y ≠ f x) = (xs.filter (fun y => y ≠ x)).map f := by
      rw [List.filter_map]
      congr 1
      apply List.filter_congr
      intro a ha
      simp only [Function.comp_apply, ne_eq, decide_not]
      congr 1
      have heq : f a = f x ↔ a = x := by
        constructor
        · exact fun h => hinj a (List.mem_cons_of_mem _ ha) x (List.mem_cons_self _ _) h
        · intro h; rw [h]
      simp [heq]
    rw [hfil]
    apply ih
    intro a ha b hb
    exact hinj a (List.mem_cons_of_mem _ (List.mem_of_mem_filter ha))
      b (List.mem_cons_of_mem _ (List.mem_of_mem_filter hb))

theorem zip_self_map {α β : Type} (f : α → β) :
    ∀ (l : List α), l.zip (l.map f) = l.map (fun x => (x, f x)) := by
  intro l
  induction l with
  | nil => rfl
  | cons x xs ih => simp [List.zip_cons_cons, ih]

/-- The six labels of the fixed table, in table order. -/
def sixLabels : List String :=
  ["Red Dwarf", "Brown Dwarf", "White Dwarf", "Main Sequence", "Giant", "Supergiant"]

/-- The table color belonging to a star-type label, read off the fixed
six-entry table (used to state what color each rendered series ought to
have). -/
def labelColor (lab : String) : String :=
  if lab = "Red Dwarf" then "red"
  else if lab = "Brown Dwarf" then "maroon"
  else if lab = "White Dwarf" then "green"
  else if lab = "Main Sequence" then "blue"
  else if lab = "Giant" then "orange"
  else "purple"

theorem labelColor_injOn :
    ∀ a ∈ sixLabels, ∀ b ∈ sixLabels, labelColor a = labelColor b → a = b := by decide

theorem star_type_map_cases {z : ℤ} {t : String × ℕ × String} (h : star_type_map z = some t) :
    t = ("Red Dwarf", 30, "red") ∨ t = ("Brown Dwarf", 20, "maroon") ∨
    t = ("White Dwarf", 25, "green") ∨ t = ("Main Sequence", 50, "blue") ∨
    t = ("Giant", 80, "orange") ∨ t = ("Supergiant", 100, "purple") := by
  unfold star_type_map at h
  split_ifs at h <;> simp_all

/-- Every row of a classifier output carries one of the six table labels,
and its color (and size) are the table attributes of that label. -/
theorem map_star_types_attrs :
    ∀ {rows : List Row} {crows : List CRow}, map_star_types rows = some crows →
      ∀ c ∈ crows, c.label ∈ sixLabels ∧ c.color = labelColor c.label := by
  intro rows
  induction rows with
  | nil =>
    intro crows h
    cases h
    intro c hc
    exact absurd hc (List.not_mem_nil c)
  | cons r rs ih =>
    intro crows h
    unfold map_star_types at h
    cases ht : star_type_map r.starType with
    | none => rw [ht] at h; cases h
    | some t =>
      rw [ht] at h
      cases hm : map_star_types rs with
      | none => rw [hm] at h; cases h
      | some cs =>
        rw [hm] at h
        injection h with h
        subst h
        intro c hc
        rcases List.mem_cons.mp hc with rfl | hc2
        · obtain ⟨lab, sz, col⟩ := t
          show lab ∈ sixLabels ∧ col = labelColor lab
          rcases star_type_map_cases ht with h6 | h6 | h6 | h6 | h6 | h6 <;>
            simp only [Prod.mk.injEq] at h6 <;>
            obtain ⟨rfl, rfl, rfl⟩ := h6 <;>
            exact ⟨by decide, by decide⟩
        · exact ih hm c hc2

/-- For a list of (label, color) pairs whose labels all occur in the
classified data, the scatter loop draws exactly one series per pair, with
the pairs' labels. -/
theorem seriesFor_all_some (crows : List CRow) :
    ∀ (ps : List (String × String)), (∀ p ∈ ps, ∃ c ∈ crows, c.label = p.1) →
      (ps.filterMap (seriesFor crows)).length = ps.length ∧
      (ps.filterMap (seriesFor crows)).map Series.label = ps.map Prod.fst := by
  intro ps
  induction ps with
  | nil => intro _; exact ⟨rfl, rfl⟩
  | cons p ps ih =>
    intro h
    obtain ⟨hlen, hlab⟩ := ih (fun x hx => h x (List.mem_cons_of_mem _ hx))
    obtain ⟨c, hc, hcl⟩ := h p (List.mem_cons_self _ _)
    cases hf : crows.filter (fun d => d.label = p.1) with
    | nil =>
      exfalso
      have hmem : c ∈ crows.filter (fun d => d.label = p.1) :=
        List.mem_filter.mpr ⟨hc, by simp [hcl]⟩
      rw [hf] at hmem
      exact absurd hmem (List.not_mem_nil c)
    | cons d ds =>
      have hsf : seriesFor crows p =
          some { label := p.1, color := p.2, size := d.size,
                 points := (d :: ds).map (fun q => (q.row.temp, q.row.mv)) } := by
        unfold seriesFor
        rw [hf]
      constructor
      · simp only [List.filterMap_cons, hsf, List.length_cons, hlen]
      · simp only [List.filterMap_cons, hsf, List.map_cons, hlab]

/-- What one drawn series looks like: its label and color are the zipped
pair's, its points are exactly the rows whose label matches, and its
marker size is the first such row's. -/
theorem seriesFor_spec (crows : List CRow) (lc : String × String) (s : Series)
    (h : seriesFor crows lc = some s) :
    s.label = lc.1 ∧ s.color = lc.2 ∧
    s.points = (crows.filter (fun c => c.label = lc.1)).map (fun q => (q.row.temp, q.row.mv)) ∧
    ∃ d ds, crows.filter (fun c => c.label = lc.1) = d :: ds ∧ s.size = d.size := by
  unfold seriesFor at h
  cases hf : crows.filter (fun c => c.label = lc.1) with
  | nil => rw [hf] at h; cases h
  | cons d ds =>
    rw [hf] at h
    injection h with h
    subst h
    exact ⟨rfl, rfl, rfl, d, ds, rfl, rfl⟩

/-- C4: for every classified dataset the Renderer draws one scatter
series per distinct star-type label — the series labels are exactly the
distinct labels present, each exactly once — and each series consists of
precisely the rows bearing its label, drawn in that label's table color
with the marker size of the first row of the group. -/
theorem C4_one_series_per_label (rows : List Row) (crows : List CRow)
    (hmap : map_star_types rows = some crows) :
    (scatterSeries crows).length = (uniqueFirst (crows.map CRow.label)).length ∧
    (scatterSeries crows).map Series.label = uniqueFirst (crows.map CRow.label) ∧
    ((scatterSeries crows).map Series.label).Nodup ∧
    (∀ l, l ∈ (scatterSeries crows).map Series.label ↔ l ∈ crows.map CRow.label) ∧
    (∀ fig, plot_hr_diagram crows = some fig → fig.series = scatterSeries crows) ∧
    (∀ s ∈ scatterSeries crows,
      s.color = labelColor s.label ∧
      s.points = (crows.filter (fun c => c.label = s.label)).map (fun q => (q.row.temp, q.row.mv)) ∧
      s.points.length = (crows.filter (fun c => c.label = s.label)).length ∧
      ∃ d ds, crows.filter (fun c => c.label = s.label) = d :: ds ∧ s.size = d.size) := by
  have hattr := map_star_types_attrs hmap
  have hcolmap : crows.map CRow.color = (crows.map CRow.label).map labelColor := by
    rw [List.map_map]
    exact List.map_congr_left (fun c hc => (hattr c hc).2)
  have hinj : ∀ a ∈ crows.map CRow.label, ∀ b ∈ crows.map CRow.label,
      labelColor a = labelColor b → a = b := by
    intro a ha b hb hab
    obtain ⟨c, hc, rfl⟩ := List.mem_map.mp ha
    obtain ⟨d, hd, rfl⟩ := List.mem_map.mp hb
    exact labelColor_injOn _ ((hattr c hc).1) _ ((hattr d hd).1) hab
  have hzip : (uniqueFirst (crows.map CRow.label)).zip (uniqueFirst (crows.map CRow.color)) =
      (uniqueFirst (crows.map CRow.label)).map (fun l => (l, labelColor l)) := by
    rw [hcolmap, uniqueFirst_map labelColor _ hinj, zip_self_map]
  have hexists : ∀ p ∈ (uniqueFirst (crows.map CRow.label)).map (fun l => (l, labelColor l)),
      ∃ c ∈ crows, c.label = p.1 := by
    intro p hp
    obtain ⟨l, hl, rfl⟩ := List.mem_map.mp hp
    obtain ⟨c, hc, rfl⟩ := List.mem_map.mp (uniqueFirst_subset _ _ hl)
    exact ⟨c, hc, rfl⟩
  have hss : scatterSeries crows =
      ((uniqueFirst (crows.map CRow.label)).map (fun l => (l, labelColor l))).filterMap
        (seriesFor crows) := by
    unfold scatterSeries
    rw [hzip]
  obtain ⟨hlen, hlab⟩ := seriesFor_all_some crows _ hexists
  have hfst : ((uniqueFirst (crows.map CRow.label)).map (fun l => (l, labelColor l))).map Prod.fst =
      uniqueFirst (crows.map CRow.label) := by
    rw [List.map_map]
    exact List.map_id' _
  refine ⟨?_, ?_, ?_, ?_, ?_, ?_⟩
  · rw [hss, hlen, List.length_map]
  · rw [hss, hlab, hfst]
  · rw [hss, hlab, hfst]
    exact uniqueFirst_nodup _
  · intro l
    rw [hss, hlab, hfst]
    exact mem_uniqueFirst _ _
  · intro fig hfig
    unfold plot_hr_diagram at hfig
    split at hfig
    · injection hfig with h
      rw [← h]
    · cases hfig
  · intro s hs
    rw [hss] at hs
    obtain ⟨p, hp, hsp⟩ := List.mem_filterMap.mp hs
    obtain ⟨hl, hc, hpts, d, ds, hfil, hsz⟩ := seriesFor_spec crows p s hsp
    obtain ⟨l, hlmem, rfl⟩ := List.mem_map.mp hp
    refine ⟨?_, ?_, ?_, ?_⟩
    · rw [hc, hl]
    · rw [hpts, hl]
    · rw [hpts, hl, List.length_map]
    · exact ⟨d, ds, by rw [hl]; exact hfil, hsz⟩

/-- Witness for C4 at the classified one-row scenario dataset. -/
theorem C4_one_series_per_label_witness :
    (scatterSeries [{ row := { temp := 5778, lum := 1, mv := 483/100, starType := 3, spectral := "G" },
                      label := "Main Sequence", size := 50, color := "blue" }]).length =
      (uniqueFirst
        (([{ row := { temp := 5778, lum := 1, mv := 483/100, starType := 3, spectral := "G" },
             label := "Main Sequence", size := 50, color := "blue" }] : List CRow).map CRow.label)).length ∧
    (scatterSeries [{ row := { temp := 5778, lum := 1, mv := 483/100, starType := 3, spectral := "G" },
                      label := "Main Sequence", size := 50, color := "blue" }]).map Series.label =
      uniqueFirst
        (([{ row := { temp := 5778, lum := 1, mv := 483/100, starType := 3, spectral := "G" },
             label := "Main Sequence", size := 50, color := "blue" }] : List CRow).map CRow.label) ∧
    ((scatterSeries [{ row := { temp := 5778, lum := 1, mv := 483/100, starType := 3, spectral := "G" },
                       label := "Main Sequence", size := 50, color := "blue" }]).map Series.label).Nodup ∧
    (∀ l, l ∈ (scatterSeries [{ row := { temp := 5778, lum := 1, mv := 483/100, starType := 3, spectral := "G" },
                                label := "Main Sequence", size := 50, color := "blue" }]).map Series.label ↔
      l ∈ ([{ row := { temp := 5778, lum := 1, mv := 483/100, starType := 3, spectral := "G" },
              label := "Main Sequence", size := 50, color := "blue" }] : List CRow).map CRow.label) ∧
    (∀ fig, plot_hr_diagram [{ row := { temp := 5778, lum := 1, mv := 483/100, starType := 3, spectral := "G" },
                               label := "Main Sequence", size := 50, color := "blue" }] = some fig →
      fig.series = scatterSeries [{ row := { temp := 5778, lum := 1, mv := 483/100, starType := 3, spectral := "G" },
                                    label := "Main Sequence", size := 50, color := "blue" }]) ∧
    (∀ s ∈ scatterSeries [{ row := { temp := 5778, lum := 1, mv := 483/100, starType := 3, spectral := "G" },
                            label := "Main Sequence", size := 50, color := "blue" }],
      s.color = labelColor s.label ∧
      s.points = (([{ row := { temp := 5778, lum := 1, mv := 483/100, starType := 3, spectral := "G" },
                      label := "Main Sequence", size := 50, color := "blue" }] : List CRow).filter
                    (fun c => c.label = s.label)).map (fun q => (q.row.temp, q.row.mv)) ∧
      s.points.length = (([{ row := { temp := 5778, lum := 1, mv := 483/100, starType := 3, spectral := "G" },
                             label := "Main Sequence", size := 50, color := "blue" }] : List CRow).filter
                           (fun c => c.label = s.label)).length ∧
      ∃ d ds, ([{ row := { temp := 5778, lum := 1, mv := 483/100, starType := 3, spectral := "G" },
                  label := "Main Sequence", size := 50, color := "blue" }] : List CRow).filter
                  (fun c => c.label = s.label) = d :: ds ∧ s.size = d.size) :=
  C4_one_series_per_label
    [{ temp := 5778, lum := 1, mv := 483/100, starType := 3, spectral := "G" }]
    [{ row := { temp := 5778, lum := 1, mv := 483/100, starType := 3, spectral := "G" },
       label := "Main Sequence", size := 50, color := "blue" }] rfl

/-- Two rows that agree on every column except possibly
`Luminosity(L/Lo)`. -/
def lumEqRow (r1 r2 : Row) : Prop :=
  r1.temp = r2.temp ∧ r1.mv = r2.mv ∧ r1.starType = r2.starType ∧ r1.spectral = r2.spectral

/-- Two classified rows that agree on everything the renderer reads:
derived columns, temperature and magnitude. -/
def crowEq (c1 c2 : CRow) : Prop :=
  c1.label = c2.label ∧ c1.size = c2.size ∧ c1.color = c2.color ∧
  c1.row.temp = c2.row.temp ∧ c1.row.mv = c2.row.mv

theorem forall₂_map_eq {α β : Type} {R : α → α → Prop} (f g : α → β)
    (h : ∀ a b, R a b → f a = g b) :
    ∀ {l1 l2 : List α}, List.Forall₂ R l1 l2 → l1.map f = l2.map g := by
  intro l1 l2 hl
  induction hl with
  | nil => rfl
  | cons hr _ ih => simp [h _ _ hr, ih]

theorem forall₂_filter {α : Type} {R : α → α → Prop} (p q : α → Bool)
    (hpq : ∀ a b, R a b → p a = q b) :
    ∀ {l1 l2 : List α}, List.Forall₂ R l1 l2 →
      List.Forall₂ R (l1.filter p) (l2.filter q) := by
  intro l1 l2 hl
  induction hl with
  | nil => exact List.Forall₂.nil
  | cons hr hrs ih =>
    rename_i a b as bs
    rw [List.filter_cons, List.filter_cons, ← hpq a b hr]
    cases p a with
    | false => exact ih
    | true => exact List.Forall₂.cons hr ih

/-- The classifier sends luminosity-equal row lists to `crowEq`-related
outputs (or fails on both). -/
theorem map_star_types_lumEq :
    ∀ {rows1 rows2 : List Row}, List.Forall₂ lumEqRow rows1 rows2 →
      (map_star_types rows1 = none ∧ map_star_types rows2 = none) ∨
      (∃ c1 c2, map_star_types rows1 = some c1 ∧ map_star_types rows2 = some c2 ∧
        List.Forall₂ crowEq c1 c2) := by
  intro rows1 rows2 h
  induction h with
  | nil => exact Or.inr ⟨[], [], rfl, rfl, List.Forall₂.nil⟩
  | cons hr hrs ih =>
    rename_i r1 r2 rs1 rs2
    obtain ⟨htemp, hmv, hst, hsp⟩ := hr
    have hsame : star_type_map r2.starType = star_type_map r1.starType := by rw [hst]
    cases ht : star_type_map r1.starType with
    | none =>
      refine Or.inl ⟨?_, ?_⟩
      · show map_star_types (r1 :: rs1) = none
        unfold map_star_types
        rw [ht]
      · show map_star_types (r2 :: rs2) = none
        unfold map_star_types
        rw [hsame, ht]
    | some t =>
      rcases ih with ⟨h1, h2⟩ | ⟨c1, c2, h1, h2, hrel⟩
      · refine Or.inl ⟨?_, ?_⟩
        · show map_star_types (r1 :: rs1) = none
          unfold map_star_types
          rw [ht, h1]
        · show map_star_types (r2 :: rs2) = none
          unfold map_star_types
          rw [hsame, ht, h2]
      · refine Or.inr ⟨{ row := r1, label := t.1, size := t.2.1, color := t.2.2 } :: c1,
          { row := r2, label := t.1, size := t.2.1, color := t.2.2 } :: c2, ?_, ?_, ?_⟩
        · show map_star_types (r1 :: rs1) = _
          unfold map_star_types
          rw [ht, h1]
        · show map_star_types (r2 :: rs2) = _
          unfold map_star_types
          rw [hsame, ht, h2]
        · exact List.Forall₂.cons ⟨rfl, rfl, rfl, htemp, hmv⟩ hrel

/-- The scatter loop draws identical series from `crowEq`-related
classified datasets. -/
theorem scatterSeries_crowEq {crows1 crows2 : List CRow}
    (h : List.Forall₂ crowEq crows1 crows2) :
    scatterSeries crows1 = scatterSeries crows2 := by
  have hlabels : crows1.map CRow.label = crows2.map CRow.label :=
    forall₂_map_eq _ _ (fun a b hab => hab.1) h
  have hcolors : crows1.map CRow.color = crows2.map CRow.color :=
    forall₂_map_eq _ _ (fun a b hab => hab.2.2.1) h
  have hfun : ∀ lc, seriesFor crows1 lc = seriesFor crows2 lc := by
    intro lc
    have hfil : List.Forall₂ crowEq (crows1.filter (fun c => c.label = lc.1))
        (crows2.filter (fun c => c.label = lc.1)) :=
      forall₂_filter _ _ (fun a b hab => by rw [show a.label = b.label from hab.1]) h
    unfold seriesFor
    generalize hf1 : crows1.filter (fun c => c.label = lc.1) = L1 at hfil ⊢
    generalize hf2 : crows2.filter (fun c => c.label = lc.1) = L2 at hfil ⊢
    cases hfil with
    | nil => rfl
    | cons hd htl =>
      rename_i d1 d2 ds1 ds2
      have hpts : (d1 :: ds1).map (fun q => (q.row.temp, q.row.mv)) =
          (d2 :: ds2).map (fun q => (q.row.temp, q.row.mv)) :=
        forall₂_map_eq _ _ (fun a b hab => by rw [hab.2.2.2.1, hab.2.2.2.2])
          (List.Forall₂.cons hd htl)
      simp only []
      rw [hpts, hd.2.1]
  unfold scatterSeries
  rw [hlabels, hcolors, funext hfun]

/-- The renderer produces identical results from `crowEq`-related
classified datasets. -/
theorem plot_hr_diagram_crowEq {crows1 crows2 : List CRow}
    (h : List.Forall₂ crowEq crows1 crows2) :
    plot_hr_diagram crows1 = plot_hr_diagram crows2 := by
  have htemps : crows1.map (fun c => c.row.temp) = crows2.map (fun c => c.row.temp) :=
    forall₂_map_eq _ _ (fun a b hab => hab.2.2.2.1) h
  have hmvs : crows1.map (fun c => c.row.mv) = crows2.map (fun c => c.row.mv) :=
    forall₂_map_eq _ _ (fun a b hab => hab.2.2.2.2) h
  have hs := scatterSeries_crowEq h
  unfold plot_hr_diagram
  rw [htemps, hmvs, hs]

/-- C10: after the Loader's column-presence check, the luminosity values
are never read again.  Two validated uploads that differ only in the
`Luminosity(L/Lo)` column give identical derived columns, an identical
figure, and an identical app outcome. -/
theorem C10_luminosity_never_read (csv1 csv2 : CSV)
    (hhdr : csv1.header = csv2.header)
    (hrows : List.Forall₂ lumEqRow csv1.rows csv2.rows) :
    (classifiedRows csv1).map derivedCols = (classifiedRows csv2).map derivedCols ∧
    (classifiedRows csv1).bind plot_hr_diagram = (classifiedRows csv2).bind plot_hr_diagram ∧
    runApp csv1 = runApp csv2 := by
  cases hcond : required_columns.all (fun c => csv1.header.contains c) with
  | false =>
    have h1 : load_data csv1 = none := by
      simp only [load_data, hcond]
      rfl
    have h2 : load_data csv2 = none := by
      simp only [load_data, ← hhdr, hcond]
      rfl
    refine ⟨?_, ?_, ?_⟩ <;> simp [classifiedRows, runApp, h1, h2]
  | true =>
    have h1 : load_data csv1 = some csv1.rows := by
      simp only [load_data, hcond]
      rfl
    have h2 : load_data csv2 = some csv2.rows := by
      simp only [load_data, ← hhdr, hcond]
      rfl
    have hcls1 : classifiedRows csv1 = map_star_types csv1.rows := by
      simp [classifiedRows, h1]
    have hcls2 : classifiedRows csv2 = map_star_types csv2.rows := by
      simp [classifiedRows, h2]
    rcases map_star_types_lumEq hrows with ⟨hm1, hm2⟩ | ⟨c1, c2, hm1, hm2, hrel⟩
    · refine ⟨?_, ?_, ?_⟩
      · rw [hcls1, hcls2, hm1, hm2]
      · rw [hcls1, hcls2, hm1, hm2]
      · simp only [runApp, h1, h2, hm1, hm2]
    · have hder : derivedCols c1 = derivedCols c2 := by
        unfold derivedCols
        exact forall₂_map_eq _ _ (fun a b hab => by rw [hab.1, hab.2.1, hab.2.2.1]) hrel
      have hplot := plot_hr_diagram_crowEq hrel
      refine ⟨?_, ?_, ?_⟩
      · rw [hcls1, hcls2, hm1, hm2]
        show some (derivedCols c1) = some (derivedCols c2)
        rw [hder]
      · rw [hcls1, hcls2, hm1, hm2]
        show plot_hr_diagram c1 = plot_hr_diagram c2
        exact hplot
      · simp only [runApp, h1, h2, hm1, hm2]
        rw [hplot]

/-- Witness for C10 at two one-row CSVs that differ only in the
luminosity value (1 versus 2 solar luminosities). -/
theorem C10_luminosity_never_read_witness :
    (classifiedRows { header := required_columns, rows := [{ temp := 5778, lum := 1, mv := 483/100, starType := 3, spectral := "G" }] }).map derivedCols =
      (classifiedRows { header := required_columns, rows := [{ temp := 5778, lum := 2, mv := 483/100, starType := 3, spectral := "G" }] }).map derivedCols ∧
    (classifiedRows { header := required_columns, rows := [{ temp := 5778, lum := 1, mv := 483/100, starType := 3, spectral := "G" }] }).bind plot_hr_diagram =
      (classifiedRows { header := required_columns, rows := [{ temp := 5778, lum := 2, mv := 483/100, starType := 3, spectral := "G" }] }).bind plot_hr_diagram ∧
    runApp { header := required_columns, rows := [{ temp := 5778, lum := 1, mv := 483/100, starType := 3, spectral := "G" }] } =
      runApp { header := required_columns, rows := [{ temp := 5778, lum := 2, mv := 483/100, starType := 3, spectral := "G" }] } :=
  C10_luminosity_never_read
    { header := required_columns,
      rows := [{ temp := 5778, lum := 1, mv := 483/100, starType := 3, spectral := "G" }] }
    { header := required_columns,
      rows := [{ temp := 5778, lum := 2, mv := 483/100, starType := 3, spectral := "G" }] }
    rfl (List.Forall₂.cons ⟨rfl, rfl, rfl, rfl⟩ List.Forall₂.nil)
